import Mathlib

/-!
Verification development for the market agent-based-model simulator.

The definitions below are a shallow embedding of the Python sources:
* `Agent` and `execute_trade` embed `src/agents/base_agent.py` (`BaseAgent`);
* `Order`, `matchStep`, `matchLoop` and `match_orders` embed
  `MarketEnvironment.match_orders` in `src/market/environment.py`;
* `MarketState`, `MarketEnvironment_init`, `update_fundamental_value` and
  `update_price` embed the remaining parts of `src/market/environment.py`;
* `fundamentalist_decide_action` embeds `Fundamentalist.decide_action` in
  `src/market_abm/agents/fundamentalist.py` and `chartist_decide_action`
  embeds the decision logic of `Chartist.decide_action` in
  `src/market_abm/agents/chartist.py`.

Floating-point arithmetic is modelled by exact rational arithmetic (`ℚ`);
draws from the pseudo-random source (`np.random.normal`,
`np.random.uniform`) are passed in as explicit parameters, so every theorem
quantifying over them holds for every possible draw.  Python's mutation of
agent objects is modelled by explicit state passing: the list of registered
agents is threaded through the matcher, and orders refer to agents by their
index in that list (each Python order holds a reference to a registered
agent, which is exactly an index into `self.agents` here).
-/

/-- Trading-agent state, after `BaseAgent.__init__`
(`src/agents/base_agent.py`, lines 21-37).  The wealth/position history
lists are omitted: no claim mentions them and `execute_trade` does not
touch them. -/
structure Agent where
  agent_id : ℕ
  cash : ℚ
  position : ℤ
  trade_history : List (String × ℤ × ℚ)
deriving Repr, DecidableEq

/-- The default `transaction_cost_rate=0.001` of `BaseAgent.execute_trade`
(`src/agents/base_agent.py`, line 67). -/
def defaultCostRate : ℚ := 1/1000

/-- `BaseAgent.execute_trade` (`src/agents/base_agent.py`, lines 67-115).
Returns the Python `bool` result together with the (possibly updated)
agent.  Any `action_type` other than `"buy"` or `"sell"` falls through to
`return False` with no mutation (line 115). -/
def execute_trade (a : Agent) (action_type : String) (quantity : ℤ) (execution_price : ℚ)
    (transaction_cost_rate : ℚ) : Bool × Agent :=
  if action_type = "buy" then
    let trade_value := (quantity : ℚ) * execution_price
    let transaction_cost := trade_value * transaction_cost_rate
    let total_cost := trade_value + transaction_cost
    if a.cash ≥ total_cost then
      (true,
        { a with
            cash := a.cash - total_cost
            position := a.position + quantity
            trade_history := a.trade_history ++ [(action_type, quantity, execution_price)] })
    else
      (false, a)
  else if action_type = "sell" then
    if a.position ≥ quantity then
      let trade_value := (quantity : ℚ) * execution_price
      let transaction_cost := trade_value * transaction_cost_rate
      let net_proceeds := trade_value - transaction_cost
      (true,
        { a with
            cash := a.cash + net_proceeds
            position := a.position - quantity
            trade_history := a.trade_history ++ [(action_type, quantity, execution_price)] })
    else
      (false, a)
  else
    (false, a)

/-- An order-book entry `(agent, quantity, price)` as appended by
`MarketEnvironment.collect_orders` (`src/market/environment.py`,
lines 103-106); the Python object reference to the agent is an index into
the market's agent list. -/
structure Order where
  agentIdx : ℕ
  quantity : ℤ
  price : ℚ
deriving Repr, DecidableEq

/-- A transaction record `(buy_agent, sell_agent, matched_quantity,
execution_price)` as appended by `match_orders`
(`src/market/environment.py`, line 171). -/
structure Txn where
  buyerIdx : ℕ
  sellerIdx : ℕ
  quantity : ℤ
  price : ℚ
deriving Repr, DecidableEq

/-- `agent.execute_trade(action, q, price)` on the agent stored at index
`i` of the market's agent list, with the default transaction-cost rate
(the matcher never passes an explicit rate).  Order books built by
`collect_orders` only reference registered agents, so the out-of-range
branch is unreachable there; it returns failure without mutation. -/
def executeAt (agents : List Agent) (i : ℕ) (action : String) (q : ℤ) (p : ℚ) :
    Bool × List Agent :=
  match agents[i]? with
  | none => (false, agents)
  | some a =>
    let r := execute_trade a action q p defaultCostRate
    (r.1, agents.set i r.2)

/-- The matching tolerance `adjustment_factor = 1.01`
(`src/market/environment.py`, line 144). -/
def adjustment_factor : ℚ := 101/100

/-- Outcome of one iteration of the `while buy_orders and sell_orders`
loop body of `match_orders` (`src/market/environment.py`, lines 142-193):
either a list was empty (loop guard fails), or the adjusted price
comparison failed (the `else` branch `break`s), or the body ran, producing
updated agents, updated order books, the volume contribution and the list
of appended transactions (empty when an executor call failed). -/
inductive StepResult where
  | noOrders : StepResult
  | noMatch : StepResult
  | stepped (agents : List Agent) (buys sells : List Order) (vol : ℤ) (txns : List Txn) :
      StepResult
deriving Repr, DecidableEq

/-- Projection: the order books left on the buy side by a `stepped`
iteration. -/
def stepBuys : StepResult → Option (List Order)
  | .stepped _ buys _ _ _ => some buys
  | _ => none

/-- Projection: the transactions appended by a `stepped` iteration. -/
def stepTxns : StepResult → Option (List Txn)
  | .stepped _ _ _ _ txns => some txns
  | _ => none

/-- One iteration of the matching loop of `match_orders`
(`src/market/environment.py`, lines 142-193), translated line by line:
compare `adjusted_buy_price >= sell_price`; on match execute at the
midpoint with quantity `min(buy_quantity, sell_quantity)`, calling the
buyer's executor first and the seller's executor on the state the buyer's
call left behind; if both succeed record the trade and reduce/remove the
filled heads, otherwise drop exactly the failed heads; on comparison
failure `break`. -/
def matchStep (agents : List Agent) (buys sells : List Order) : StepResult :=
  match buys, sells with
  | [], _ => .noOrders
  | _, [] => .noOrders
  | b :: bs, s :: ss =>
    if b.price * adjustment_factor ≥ s.price then
      let execution_price := (b.price + s.price) / 2
      let matched_quantity := min b.quantity s.quantity
      let br := executeAt agents b.agentIdx "buy" matched_quantity execution_price
      let sr := executeAt br.2 s.agentIdx "sell" matched_quantity execution_price
      if br.1 && sr.1 then
        .stepped sr.2
          (if b.quantity > matched_quantity then
            { b with quantity := b.quantity - matched_quantity } :: bs
          else bs)
          (if s.quantity > matched_quantity then
            { s with quantity := s.quantity - matched_quantity } :: ss
          else ss)
          matched_quantity
          [⟨b.agentIdx, s.agentIdx, matched_quantity, execution_price⟩]
      else
        .stepped sr.2 (if br.1 then b :: bs else bs) (if sr.1 then s :: ss else ss) 0 []
    else .noMatch

/-- The `while buy_orders and sell_orders` loop of `match_orders`.  Every
`stepped` iteration removes at least one order from the two books (the
fully filled side on success, every failed side on failure), so running
the loop with fuel `buys.length + sells.length` is exactly the Python
loop: the fuel cannot run out while both books are non-empty. -/
def matchLoop : ℕ → List Agent → List Order → List Order → ℤ → List Txn →
    ℤ × List Txn × List Agent
  | 0, agents, _, _, vol, txns => (vol, txns, agents)
  | fuel + 1, agents, buys, sells, vol, txns =>
    match matchStep agents buys sells with
    | .noOrders => (vol, txns, agents)
    | .noMatch => (vol, txns, agents)
    | .stepped agents2 buys2 sells2 dvol dtxns =>
        matchLoop fuel agents2 buys2 sells2 (vol + dvol) (txns ++ dtxns)

/-- Stable insertion of `x` into a list sorted by `le`; an element equal
to `x` under `le` that was earlier in the original list stays before `x`. -/
def insertSorted {α : Type} (le : α → α → Bool) (x : α) : List α → List α
  | [] => [x]
  | y :: ys => if le x y then x :: y :: ys else y :: insertSorted le x ys

/-- Stable sort by `le`, modelling Python's stable `sorted`. -/
def sortBy {α : Type} (le : α → α → Bool) : List α → List α
  | [] => []
  | x :: xs => insertSorted le x (sortBy le xs)

/-- `MarketEnvironment.match_orders` (`src/market/environment.py`,
lines 108-213): sort buy orders by price descending and sell orders by
price ascending (both stable, like Python's `sorted`), then run the
matching loop.  Returns `(total_volume, transactions, agents)`; the agent
list is returned because Python mutates the agent objects in place. -/
def match_orders (agents : List Agent) (buy_orders sell_orders : List Order) :
    ℤ × List Txn × List Agent :=
  let buys := sortBy (fun a b => decide (a.price ≥ b.price)) buy_orders
  let sells := sortBy (fun a b => decide (a.price ≤ b.price)) sell_orders
  matchLoop (buys.length + sells.length) agents buys sells 0 []

/-- `sum(agent.position for agent in self.agents)` as computed before and
after the matching loop (`src/market/environment.py`, lines 125 and 196). -/
def totalPosition (agents : List Agent) : ℤ := (agents.map Agent.position).sum

/-- Market state, after `MarketEnvironment.__init__`
(`src/market/environment.py`, lines 25-55). -/
structure MarketState where
  current_price : ℚ
  fundamental_value : ℚ
  price_history : List ℚ
  fundamental_history : List ℚ
  trading_volume : List ℤ
  bid_ask_spread : ℚ
  max_position : ℤ
  volatility : ℚ
  agents : List Agent
  buy_orders : List Order
  sell_orders : List Order
  stats_daily_returns : List ℚ
  stats_total_volume : ℤ
deriving Repr, DecidableEq

/-- `MarketEnvironment.__init__` (`src/market/environment.py`,
lines 25-55).  The constructor performs no validation whatsoever: it is a
total function accepting any `initial_price` (in particular a non-positive
one). -/
def MarketEnvironment_init (initial_price initial_fundamental_value volatility : ℚ)
    (max_position : ℤ) : MarketState :=
  { current_price := initial_price
    fundamental_value := initial_fundamental_value
    price_history := [initial_price]
    fundamental_history := [initial_fundamental_value]
    trading_volume := [0]
    bid_ask_spread := (1/100) * initial_price
    max_position := max_position
    volatility := volatility
    agents := []
    buy_orders := []
    sell_orders := []
    stats_daily_returns := []
    stats_total_volume := 0 }

/-- `MarketEnvironment.update_fundamental_value`
(`src/market/environment.py`, lines 66-91).  The Gaussian `shock` draw is
an explicit parameter. -/
def update_fundamental_value (m : MarketState) (random_shock : Bool) (shock trend : ℚ) :
    MarketState :=
  let fv1 := if random_shock then m.fundamental_value + shock else m.fundamental_value
  let fv2 := fv1 * (1 + trend)
  let fv3 := max (1/100) fv2
  { m with
      fundamental_value := fv3
      fundamental_history := m.fundamental_history ++ [fv3] }

/-- `MarketEnvironment.update_price` (`src/market/environment.py`,
lines 215-254).  `random_change` is the no-transaction random-walk draw
and `noise` the final noise draw, both explicit parameters.  In the
transaction branch the VWAP divides by the total matched volume, which is
positive for every transaction list the matcher produces. -/
def update_price (m : MarketState) (transactions : List Txn) (random_change noise : ℚ) :
    MarketState :=
  let base :=
    if transactions.isEmpty then
      max (1/100) (m.current_price + random_change)
    else
      let total_value := (transactions.map fun t => (t.quantity : ℚ) * t.price).sum
      let total_volume := (transactions.map fun t => (t.quantity : ℚ)).sum
      let vwap := total_value / total_volume
      (6/10) * vwap + (4/10) * m.current_price
  let new_price := max (1/100) (base + noise)
  let ph := m.price_history ++ [new_price]
  { m with
      current_price := new_price
      price_history := ph
      stats_daily_returns :=
        if 1 < ph.length then
          m.stats_daily_returns ++ [new_price / m.price_history.getLastD 1 - 1]
        else m.stats_daily_returns }

/-- Python's `int()` conversion: truncation toward zero. -/
def pyInt (x : ℚ) : ℤ := if 0 ≤ x then ⌊x⌋ else -⌊-x⌋

/-- The clamped buy quantity of `Fundamentalist.decide_action`
(`src/market_abm/agents/fundamentalist.py`, lines 82-94):
`max(1, min(position_change, min(int(cash/price*0.7), max_position - position)))`,
expressed in terms of the mispricing signal `mis`. -/
def fundamentalist_buy_quantity (cash : ℚ) (position max_position : ℤ) (p mis rs : ℚ) : ℤ :=
  max 1 (min (pyInt (rs * 3 * mis * cash / p))
    (min (pyInt (cash / p * (7/10))) (max_position - position)))

/-- `Fundamentalist.decide_action` (`src/market_abm/agents/fundamentalist.py`,
lines 52-116).  `est_noise` is the Gaussian draw added by
`estimate_fundamental_value` and `spread_noise` the `np.random.uniform(0, 0.002)`
draw used for the limit price; `rs` is the agent's `reaction_speed`. -/
def fundamentalist_decide_action (cash : ℚ) (position max_position : ℤ)
    (current_price fundamental_value est_noise spread_noise rs : ℚ) :
    String × ℤ × Option ℚ :=
  let estimated_value := fundamental_value + est_noise
  let mispricing := estimated_value - current_price
  if |mispricing| < (2/1000) * current_price then ("hold", 0, none)
  else
    let position_change := pyInt (rs * 3 * mispricing * cash / current_price)
    let max_new_position :=
      min (pyInt (cash / current_price * (7/10))) (max_position - position)
    if mispricing > 0 then
      let quantity := max 1 (min position_change max_new_position)
      if cash < (quantity : ℚ) * current_price then ("hold", 0, none)
      else ("buy", quantity, some (current_price * (1 + spread_noise)))
    else
      if position > 0 then
        let quantity := max 1 (min |position_change| position)
        ("sell", quantity, some (current_price * (1 - spread_noise)))
      else ("hold", 0, none)

/-- The decision logic of `Chartist.decide_action`
(`src/market_abm/agents/chartist.py`, lines 80-141), given the trend
signal computed by `analyze_trend` (the signal itself involves a standard
deviation, i.e. a real square root, and enters the decision only through
this parameter). -/
def chartist_decide_action (cash : ℚ) (position max_position : ℤ)
    (current_price trend spread_noise : ℚ) : String × ℤ × Option ℚ :=
  if |trend| < 2/100 then ("hold", 0, none)
  else
    let position_change := pyInt (cash * |trend| * 3 / current_price)
    if trend > 0 then
      let max_new_position :=
        min (pyInt (cash / current_price * (7/10))) (max_position - position)
      let quantity := max 1 (min position_change max_new_position)
      if cash < (quantity : ℚ) * current_price then ("hold", 0, none)
      else ("buy", quantity, some (current_price * (1 + spread_noise)))
    else
      if position > 0 then
        let quantity := max 1 (min |position_change| position)
        ("sell", quantity, some (current_price * (1 - spread_noise)))
      else ("hold", 0, none)

/-! ### Helper lemmas shared by several claim theorems -/

lemma execute_trade_buy_def (a : Agent) (q : ℤ) (p r : ℚ) :
    execute_trade a "buy" q p r =
      if a.cash ≥ (q : ℚ) * p + (q : ℚ) * p * r then
        (true,
          { a with
              cash := a.cash - ((q : ℚ) * p + (q : ℚ) * p * r)
              position := a.position + q
              trade_history := a.trade_history ++ [("buy", q, p)] })
      else (false, a) := by
  unfold execute_trade
  rw [if_pos rfl]

lemma execute_trade_sell_def (a : Agent) (q : ℤ) (p r : ℚ) :
    execute_trade a "sell" q p r =
      if a.position ≥ q then
        (true,
          { a with
              cash := a.cash + ((q : ℚ) * p - (q : ℚ) * p * r)
              position := a.position - q
              trade_history := a.trade_history ++ [("sell", q, p)] })
      else (false, a) := by
  unfold execute_trade
  rw [if_neg (by simp), if_pos rfl]

lemma matchStep_eq_noMatch_iff (agents : List Agent) (b s : Order) (bs ss : List Order) :
    matchStep agents (b :: bs) (s :: ss) = StepResult.noMatch ↔
      b.price * (101/100) < s.price := by
  simp only [matchStep]
  by_cases h : b.price * adjustment_factor ≥ s.price
  · rw [if_pos h]
    simp only [adjustment_factor, ge_iff_le] at h
    simp only [not_lt.mpr h, iff_false]
    intro hc
    split at hc <;> exact StepResult.noConfusion hc
  · rw [if_neg h]
    simp only [adjustment_factor, ge_iff_le, not_le] at h
    simp [h]

lemma matchStep_match (agents : List Agent) (b s : Order) (bs ss : List Order)
    (h : s.price ≤ b.price * (101/100)) :
    matchStep agents (b :: bs) (s :: ss) =
      (let execution_price := (b.price + s.price) / 2
       let matched_quantity := min b.quantity s.quantity
       let br := executeAt agents b.agentIdx "buy" matched_quantity execution_price
       let sr := executeAt br.2 s.agentIdx "sell" matched_quantity execution_price
       if br.1 && sr.1 then
         StepResult.stepped sr.2
           (if b.quantity > matched_quantity then
             { b with quantity := b.quantity - matched_quantity } :: bs
           else bs)
           (if s.quantity > matched_quantity then
             { s with quantity := s.quantity - matched_quantity } :: ss
           else ss)
           matched_quantity
           [⟨b.agentIdx, s.agentIdx, matched_quantity, execution_price⟩]
       else
         StepResult.stepped sr.2 (if br.1 then b :: bs else bs)
           (if sr.1 then s :: ss else ss) 0 []) := by
  simp only [matchStep]
  rw [if_pos (by simpa [adjustment_factor, ge_iff_le] using h)]

/-! ### Claim theorems -/

/-- Claim C1 (code evidence): share conservation fails inside
`match_orders` when the buyer's executor call succeeds and the seller's
fails.  With a buyer holding cash 1000 and 0 shares and a seller holding 3
shares facing a sell order of quantity 5, the heads match (101·1.01 ≥ 100),
the buy executes (position 0 → 5) and the sell fails (3 < 5), so the total
position across the two agents goes from 3 to 8 even though the recorded
volume is 0: shares are created. -/
theorem C1_conservation_violation :
    totalPosition [⟨0, 1000, 0, []⟩, ⟨1, 0, 3, []⟩] = 3 ∧
    (match_orders [⟨0, 1000, 0, []⟩, ⟨1, 0, 3, []⟩] [⟨0, 5, 101⟩] [⟨1, 5, 100⟩]).1 = 0 ∧
    totalPosition
      (match_orders [⟨0, 1000, 0, []⟩, ⟨1, 0, 3, []⟩] [⟨0, 5, 101⟩] [⟨1, 5, 100⟩]).2.2 = 8 := by
  refine ⟨by norm_num [totalPosition], ?_, ?_⟩ <;>
    norm_num [match_orders, matchLoop, matchStep, executeAt, execute_trade, sortBy,
      insertSorted, defaultCostRate, adjustment_factor, totalPosition]

/-- Claim C2: the executor contract of `BaseAgent.execute_trade`.  A buy
fails exactly when `cash < quantity·price·(1+rate)` and a sell exactly
when `position < quantity`; failure mutates nothing; a successful buy
debits `quantity·price·(1+rate)` from cash, credits `quantity` to the
position and logs one trade, a successful sell credits
`quantity·price·(1-rate)` to cash, debits `quantity` from the position and
logs one trade; no successful buy leaves cash negative and no successful
sell leaves the position negative. -/
theorem C2_executor_contract (a : Agent) (q : ℤ) (p r : ℚ) :
    (((execute_trade a "buy" q p r).1 = false ↔ a.cash < (q : ℚ) * p * (1 + r)) ∧
      ((execute_trade a "buy" q p r).1 = false → (execute_trade a "buy" q p r).2 = a) ∧
      ((execute_trade a "buy" q p r).1 = true →
        (execute_trade a "buy" q p r).2.cash = a.cash - (q : ℚ) * p * (1 + r) ∧
        (execute_trade a "buy" q p r).2.position = a.position + q ∧
        (execute_trade a "buy" q p r).2.trade_history = a.trade_history ++ [("buy", q, p)] ∧
        0 ≤ (execute_trade a "buy" q p r).2.cash)) ∧
    (((execute_trade a "sell" q p r).1 = false ↔ a.position < q) ∧
      ((execute_trade a "sell" q p r).1 = false → (execute_trade a "sell" q p r).2 = a) ∧
      ((execute_trade a "sell" q p r).1 = true →
        (execute_trade a "sell" q p r).2.cash = a.cash + (q : ℚ) * p * (1 - r) ∧
        (execute_trade a "sell" q p r).2.position = a.position - q ∧
        (execute_trade a "sell" q p r).2.trade_history = a.trade_history ++ [("sell", q, p)] ∧
        0 ≤ (execute_trade a "sell" q p r).2.position)) := by
  have hq : (q : ℚ) * p + (q : ℚ) * p * r = (q : ℚ) * p * (1 + r) := by ring
  have hq2 : (q : ℚ) * p - (q : ℚ) * p * r = (q : ℚ) * p * (1 - r) := by ring
  rw [execute_trade_buy_def, execute_trade_sell_def]
  constructor
  · split_ifs with hc
    · simp only [ge_iff_le, hq] at hc
      refine ⟨by simp [not_lt.mpr hc], by simp, fun _ => ⟨?_, rfl, rfl, ?_⟩⟩
      · show a.cash - ((q : ℚ) * p + (q : ℚ) * p * r) = a.cash - (q : ℚ) * p * (1 + r)
        rw [hq]
      · show (0 : ℚ) ≤ a.cash - ((q : ℚ) * p + (q : ℚ) * p * r)
        rw [hq]
        linarith
    · simp only [ge_iff_le, not_le, hq] at hc
      exact ⟨by simp [hc], fun _ => rfl, by simp⟩
  · split_ifs with hc
    · simp only [ge_iff_le] at hc
      refine ⟨by simp [not_lt.mpr hc], by simp, fun _ => ⟨?_, rfl, rfl, ?_⟩⟩
      · show a.cash + ((q : ℚ) * p - (q : ℚ) * p * r) = a.cash + (q : ℚ) * p * (1 - r)
        rw [hq2]
      · show (0 : ℤ) ≤ a.position - q
        omega
    · simp only [ge_iff_le, not_le] at hc
      exact ⟨by simp [hc], fun _ => rfl, by simp⟩

/-- Claim C2 witness: a concrete successful sell (5 shares at 100.5 from a
position of 5) leaves the position at `5 - 5`. -/
theorem C2_executor_contract_witness :
    (execute_trade ⟨0, 1000, 5, []⟩ "sell" 5 (201/2) (1/1000)).2.position = 5 - 5 :=
  ((C2_executor_contract ⟨0, 1000, 5, []⟩ 5 (201/2) (1/1000)).2.2.2
    (by norm_num [execute_trade_sell_def])).2.1

/-- Claim C5 (code evidence): `MarketEnvironment.__init__` performs no
validation at all — constructing the market with the non-positive initial
price −5 succeeds and simply records the degenerate price (and a negative
bid-ask spread), rather than failing fast. -/
theorem C5_init_accepts_nonpositive_price :
    (MarketEnvironment_init (-5) 100 (1/10) 100).current_price = -5 ∧
    (MarketEnvironment_init (-5) 100 (1/10) 100).price_history = [-5] ∧
    (MarketEnvironment_init (-5) 100 (1/10) 100).bid_ask_spread = -(1/20) := by
  refine ⟨rfl, rfl, ?_⟩
  norm_num [MarketEnvironment_init]

/-- Claim C7: both price-update paths floor their result at the positive
epsilon 0.01, so for every state, every transaction list and every random
draw the fundamental value appended to `fundamental_history` and the
market price appended to `price_history` are strictly positive (and are
exactly the values the histories are extended with). -/
theorem C7_price_and_fundamental_positivity (m : MarketState) (random_shock : Bool)
    (shock trend : ℚ) (transactions : List Txn) (random_change noise : ℚ) :
    0 < (update_fundamental_value m random_shock shock trend).fundamental_value ∧
    (update_fundamental_value m random_shock shock trend).fundamental_history =
      m.fundamental_history ++
        [(update_fundamental_value m random_shock shock trend).fundamental_value] ∧
    0 < (update_price m transactions random_change noise).current_price ∧
    (update_price m transactions random_change noise).price_history =
      m.price_history ++ [(update_price m transactions random_change noise).current_price] := by
  refine ⟨?_, rfl, ?_, rfl⟩
  · exact lt_of_lt_of_le (by norm_num) (le_max_left _ _)
  · exact lt_of_lt_of_le (by norm_num) (le_max_left _ _)

/-- Claim C10: `execute_trade` with any `action_type` other than `"buy"`
or `"sell"` returns `False` and leaves cash, position and trade history
unchanged (it falls through to the final `return False`). -/
theorem C10_invalid_action_noop (a : Agent) (action : String) (q : ℤ) (p r : ℚ)
    (hb : action ≠ "buy") (hs : action ≠ "sell") :
    execute_trade a action q p r = (false, a) := by
  unfold execute_trade
  rw [if_neg hb, if_neg hs]

/-- Claim C10 witness: the unknown action `"hold"` is rejected without
mutation. -/
theorem C10_invalid_action_noop_witness :
    execute_trade ⟨0, 100, 0, []⟩ "hold" 1 1 (1/1000) = (false, ⟨0, 100, 0, []⟩) :=
  C10_invalid_action_noop ⟨0, 100, 0, []⟩ "hold" 1 1 (1/1000) (by simp) (by simp)

/-- Claim C3: the matching rule.  (1) The head comparison fails exactly
when `buy_price · 1.01 < sell_price`, i.e. a match occurs exactly when
`buy_price · 1.01 ≥ sell_price`; (2) whenever the heads match and both
executor calls succeed, the recorded transaction is at the midpoint
`(buy_price + sell_price)/2` of the raw limit prices with quantity
`min(buy_remaining, sell_remaining)`; (3) a buy (qty 5, price 101)
against a sell (qty 5, price 100) executes at 100.5 for quantity 5 and
updates both agents' positions and cash accordingly; (4) a buy of qty 5
matched against a sell of qty 3 leaves a residual buy order of quantity 2
at the original limit price 101. -/
theorem C3_matching_rule :
    (∀ (agents : List Agent) (b s : Order) (bs ss : List Order),
        matchStep agents (b :: bs) (s :: ss) = StepResult.noMatch ↔
          b.price * (101/100) < s.price) ∧
    (∀ (agents : List Agent) (b s : Order) (bs ss : List Order),
        s.price ≤ b.price * (101/100) →
        (executeAt agents b.agentIdx "buy" (min b.quantity s.quantity)
            ((b.price + s.price) / 2)).1 = true →
        (executeAt (executeAt agents b.agentIdx "buy" (min b.quantity s.quantity)
              ((b.price + s.price) / 2)).2 s.agentIdx "sell" (min b.quantity s.quantity)
            ((b.price + s.price) / 2)).1 = true →
        stepTxns (matchStep agents (b :: bs) (s :: ss)) =
          some [⟨b.agentIdx, s.agentIdx, min b.quantity s.quantity, (b.price + s.price) / 2⟩]) ∧
    ((match_orders [⟨0, 1000, 0, []⟩, ⟨1, 0, 5, []⟩] [⟨0, 5, 101⟩] [⟨1, 5, 100⟩]).1 = 5 ∧
      (match_orders [⟨0, 1000, 0, []⟩, ⟨1, 0, 5, []⟩] [⟨0, 5, 101⟩] [⟨1, 5, 100⟩]).2.1 =
        [⟨0, 1, 5, 201/2⟩] ∧
      ((match_orders [⟨0, 1000, 0, []⟩, ⟨1, 0, 5, []⟩] [⟨0, 5, 101⟩] [⟨1, 5, 100⟩]).2.2.map
          Agent.position) = [5, 0] ∧
      ((match_orders [⟨0, 1000, 0, []⟩, ⟨1, 0, 5, []⟩] [⟨0, 5, 101⟩] [⟨1, 5, 100⟩]).2.2.map
          Agent.cash) = [1000 - 5 * (201/2) * (1 + 1/1000), 5 * (201/2) * (1 - 1/1000)]) ∧
    stepBuys (matchStep [⟨0, 1000, 0, []⟩, ⟨1, 0, 3, []⟩] [⟨0, 5, 101⟩] [⟨1, 3, 100⟩]) =
      some [⟨0, 2, 101⟩] := by
  refine ⟨fun agents b s bs ss => matchStep_eq_noMatch_iff agents b s bs ss, ?_, ?_, ?_⟩
  · intro agents b s bs ss h hb hs
    rw [matchStep_match agents b s bs ss h]
    simp [hb, hs, stepTxns]
  · refine ⟨?_, ?_, ?_, ?_⟩ <;>
      norm_num [match_orders, matchLoop, matchStep, executeAt, execute_trade_buy_def,
        execute_trade_sell_def, sortBy, insertSorted, defaultCostRate, adjustment_factor]
  · norm_num [matchStep, executeAt, execute_trade_buy_def, execute_trade_sell_def,
      defaultCostRate, adjustment_factor, stepBuys]

/-- Claim C3 witness: instantiating the midpoint/min rule at the concrete
full fill (buy qty 5 at 101 against sell qty 5 at 100) yields the
transaction at price 100.5 with quantity 5. -/
theorem C3_matching_rule_witness :
    stepTxns (matchStep [⟨0, 1000, 0, []⟩, ⟨1, 0, 5, []⟩] [⟨0, 5, 101⟩] [⟨1, 5, 100⟩]) =
      some [⟨0, 1, 5, (101 + 100) / 2⟩] := by
  rw [C3_matching_rule.2.1 [⟨0, 1000, 0, []⟩, ⟨1, 0, 5, []⟩] ⟨0, 5, 101⟩ ⟨1, 5, 100⟩ [] []
    (by norm_num) (by norm_num [executeAt, execute_trade_buy_def, execute_trade_sell_def, defaultCostRate])
    (by norm_num [executeAt, execute_trade_buy_def, execute_trade_sell_def, defaultCostRate])]
  norm_num

/-- Claim C8: when the adjusted head comparison fails the matching loop
terminates immediately, returning its accumulators unchanged; in
particular a single buy at 95 against a single sell at 100 (adjusted buy
95.95 < 100) produces no trade, an unchanged agent list and matched
volume 0. -/
theorem C8_no_match_terminates :
    (∀ (agents : List Agent) (b s : Order) (bs ss : List Order) (fuel : ℕ) (vol : ℤ)
        (txns : List Txn),
        b.price * (101/100) < s.price →
        matchLoop (fuel + 1) agents (b :: bs) (s :: ss) vol txns = (vol, txns, agents)) ∧
    match_orders [⟨0, 1000, 0, []⟩, ⟨1, 0, 5, []⟩] [⟨0, 1, 95⟩] [⟨1, 1, 100⟩] =
      (0, [], [⟨0, 1000, 0, []⟩, ⟨1, 0, 5, []⟩]) := by
  constructor
  · intro agents b s bs ss fuel vol txns h
    have hnm := (matchStep_eq_noMatch_iff agents b s bs ss).mpr h
    simp only [matchLoop, hnm]
  · norm_num [match_orders, matchLoop, matchStep, executeAt, execute_trade, sortBy,
      insertSorted, defaultCostRate, adjustment_factor, String.reduceEq]

/-- Claim C8 witness: the no-match termination applied at 95 vs 100 with
fuel 1 returns the accumulators untouched. -/
theorem C8_no_match_terminates_witness :
    matchLoop (0 + 1) [] [⟨0, 1, 95⟩] [⟨1, 1, 100⟩] 0 [] = (0, [], []) :=
  C8_no_match_terminates.1 [] ⟨0, 1, 95⟩ ⟨1, 1, 100⟩ [] [] 0 0 [] (by norm_num)

/-- Claim C9: for every head pair with
`buy_price < sell_price ≤ 1.01 · buy_price` the comparison succeeds, so a
match is attempted (the step is a loop-body execution, not a `break`): the
step's transaction list is `some []` only when an executor call failed,
and otherwise records exactly one trade at the midpoint; and that midpoint
execution price is strictly greater than the buyer's limit price. -/
theorem C9_execution_above_buyer_limit :
    ∀ (agents : List Agent) (b s : Order) (bs ss : List Order),
      b.price < s.price → s.price ≤ b.price * (101/100) →
      (stepTxns (matchStep agents (b :: bs) (s :: ss)) = some [] ∨
        stepTxns (matchStep agents (b :: bs) (s :: ss)) =
          some [⟨b.agentIdx, s.agentIdx, min b.quantity s.quantity, (b.price + s.price) / 2⟩]) ∧
      b.price < (b.price + s.price) / 2 := by
  intro agents b s bs ss h1 h2
  refine ⟨?_, by linarith⟩
  rw [matchStep_match agents b s bs ss h2]
  by_cases hc :
      ((executeAt agents b.agentIdx "buy" (min b.quantity s.quantity)
          ((b.price + s.price) / 2)).1 &&
        (executeAt (executeAt agents b.agentIdx "buy" (min b.quantity s.quantity)
              ((b.price + s.price) / 2)).2 s.agentIdx "sell" (min b.quantity s.quantity)
            ((b.price + s.price) / 2)).1) = true
  · right
    simp [hc, stepTxns]
  · left
    simp only [Bool.not_eq_true] at hc
    simp [hc, stepTxns]

/-- Claim C9 witness: a buy limited at 100 against a sell at 100.5 is
within the tolerance and the midpoint 100.25 exceeds the buyer's limit. -/
theorem C9_execution_above_buyer_limit_witness :
    (stepTxns (matchStep [] [⟨0, 1, 100⟩] [⟨1, 1, 201/2⟩]) = some [] ∨
      stepTxns (matchStep [] [⟨0, 1, 100⟩] [⟨1, 1, 201/2⟩]) =
        some [⟨0, 1, min 1 1, (100 + 201/2) / 2⟩]) ∧
    (100 : ℚ) < (100 + 201/2) / 2 :=
  C9_execution_above_buyer_limit [] ⟨0, 1, 100⟩ ⟨1, 1, 201/2⟩ [] [] (by norm_num) (by norm_num)

/-- Claim C4 counterexample: a Fundamentalist with cash 1000, position 10
and `max_position = 10` (headroom `10 - 10 = 0`) facing price 100 and
estimated value 110 emits a buy intent of quantity 1, and likewise a
Chartist with the same holdings and trend signal 0.5 — so a buy intent can
exceed the position-limit headroom when that headroom is zero. -/
theorem C4_headroom_counterexample :
    (fundamentalist_decide_action 1000 10 10 100 110 0 0 (1/10)).1 = "buy" ∧
    (fundamentalist_decide_action 1000 10 10 100 110 0 0 (1/10)).2.1 = 1 ∧
    (chartist_decide_action 1000 10 10 100 (1/2) 0).1 = "buy" ∧
    (chartist_decide_action 1000 10 10 100 (1/2) 0).2.1 = 1 ∧
    ((10 : ℤ) - 10 = 0) := by
  norm_num [fundamentalist_decide_action, chartist_decide_action, pyInt, abs_lt]

/-- Claim C4 (amended): every buy intent emitted by a Fundamentalist (and
analogously a Chartist) has quantity at least 1, and whenever
`min(int(0.7·cash/price), max_position - position) ≥ 1` the quantity is
also at most `int(0.7·cash/price)` and at most the position-limit headroom
`max_position - position`; when that cap is below 1 the final `max(1, ·)`
clamp emits quantity 1 regardless of the headroom. -/
theorem C4_buy_quantity_clamp :
    (∀ (cash : ℚ) (position max_position : ℤ) (p fv ε u rs : ℚ),
        (fundamentalist_decide_action cash position max_position p fv ε u rs).1 = "buy" →
        1 ≤ (fundamentalist_decide_action cash position max_position p fv ε u rs).2.1 ∧
        (1 ≤ min (pyInt (cash / p * (7/10))) (max_position - position) →
          (fundamentalist_decide_action cash position max_position p fv ε u rs).2.1 ≤
            pyInt (cash / p * (7/10)) ∧
          (fundamentalist_decide_action cash position max_position p fv ε u rs).2.1 ≤
            max_position - position)) ∧
    (∀ (cash : ℚ) (position max_position : ℤ) (p trend u : ℚ),
        (chartist_decide_action cash position max_position p trend u).1 = "buy" →
        1 ≤ (chartist_decide_action cash position max_position p trend u).2.1 ∧
        (1 ≤ min (pyInt (cash / p * (7/10))) (max_position - position) →
          (chartist_decide_action cash position max_position p trend u).2.1 ≤
            pyInt (cash / p * (7/10)) ∧
          (chartist_decide_action cash position max_position p trend u).2.1 ≤
            max_position - position)) := by
  constructor
  · intro cash position max_position p fv ε u rs hbuy
    simp only [fundamentalist_decide_action] at hbuy ⊢
    split_ifs at hbuy ⊢ with h1 h2 h3 h4
    · simp at hbuy
    · simp at hbuy
    · dsimp only
      omega
    · simp at hbuy
    · simp at hbuy
  · intro cash position max_position p trend u hbuy
    simp only [chartist_decide_action] at hbuy ⊢
    split_ifs at hbuy ⊢ with h1 h2 h3 h4
    · simp at hbuy
    · simp at hbuy
    · dsimp only
      omega
    · simp at hbuy
    · simp at hbuy

/-- Claim C4 witness: a Fundamentalist with ample cash and headroom
(cash 10000, position 0, limit 100, price 100, estimate 110) emits a buy
of quantity 70 = `int(0.7·10000/100)`, within both caps. -/
theorem C4_buy_quantity_clamp_witness :
    1 ≤ (fundamentalist_decide_action 10000 0 100 100 110 0 0 (1/10)).2.1 ∧
    (1 ≤ min (pyInt ((10000 : ℚ) / 100 * (7/10))) ((100 : ℤ) - 0) →
      (fundamentalist_decide_action 10000 0 100 100 110 0 0 (1/10)).2.1 ≤
        pyInt ((10000 : ℚ) / 100 * (7/10)) ∧
      (fundamentalist_decide_action 10000 0 100 100 110 0 0 (1/10)).2.1 ≤ (100 : ℤ) - 0) :=
  C4_buy_quantity_clamp.1 10000 0 100 100 110 0 0 (1/10)
    (by norm_num [fundamentalist_decide_action, pyInt, abs_lt])

/-- Claim C6 counterexample: with current price 100 and estimated value
100.2 the mispricing 0.2 sits exactly at the 0.2%-of-price boundary
(`|0.2| = 0.002·100`), yet a Fundamentalist with cash 10000 does not hold:
the strict `<` threshold fails and it emits a buy of quantity 6. -/
theorem C6_boundary_counterexample :
    |((100 : ℚ) + 2/10) - 100| = (2/1000) * 100 ∧
    (fundamentalist_decide_action 10000 0 100 100 100 (2/10) 0 (1/10)).1 = "buy" ∧
    (fundamentalist_decide_action 10000 0 100 100 100 (2/10) 0 (1/10)).2.1 = 6 := by
  refine ⟨?_, ?_, ?_⟩
  · rw [show ((100 : ℚ) + 2/10) - 100 = 2/10 by norm_num, abs_of_pos (by norm_num)]
    norm_num
  · norm_num [fundamentalist_decide_action, pyInt, abs_lt]
  · norm_num [fundamentalist_decide_action, pyInt, abs_lt]

/-- Claim C6 (amended): a Fundamentalist holds exactly when
`|mispricing| < 0.002·current_price` (strict), or the clamped buy
quantity is unaffordable (`mispricing > 0` and `cash < quantity·price`),
or there are no shares to sell (`mispricing ≤ 0` and `position ≤ 0`).  In
particular at exactly the 0.2% boundary the threshold does not trigger a
hold: with sufficient cash (or shares) the agent trades. -/
theorem C6_hold_characterization (cash : ℚ) (position max_position : ℤ) (p fv ε u rs : ℚ) :
    (fundamentalist_decide_action cash position max_position p fv ε u rs).1 = "hold" ↔
      (|fv + ε - p| < (2/1000) * p ∨
        (¬(|fv + ε - p| < (2/1000) * p) ∧ 0 < fv + ε - p ∧
          cash <
            (fundamentalist_buy_quantity cash position max_position p (fv + ε - p) rs : ℚ) * p) ∨
        (¬(|fv + ε - p| < (2/1000) * p) ∧ ¬(0 < fv + ε - p) ∧ position ≤ 0)) := by
  simp only [fundamentalist_decide_action, fundamentalist_buy_quantity]
  split_ifs with h1 h2 h3 h4
  · exact iff_of_true rfl (Or.inl h1)
  · exact iff_of_true rfl (Or.inr (Or.inl ⟨h1, h2, h3⟩))
  · refine iff_of_false (by simp) ?_
    rintro (h | ⟨-, -, hc⟩ | ⟨-, hm, -⟩)
    · exact h1 h
    · exact h3 hc
    · exact hm h2
  · refine iff_of_false (by simp) ?_
    rintro (h | ⟨-, hm0, -⟩ | ⟨-, -, hp⟩)
    · exact h1 h
    · exact h2 hm0
    · omega
  · exact iff_of_true rfl (Or.inr (Or.inr ⟨h1, h2, by omega⟩))

/-- Claim C6 witness: with zero mispricing (well inside the threshold) the
Fundamentalist holds. -/
theorem C6_hold_characterization_witness :
    (fundamentalist_decide_action 10000 0 100 100 100 0 0 (1/10)).1 = "hold" :=
  (C6_hold_characterization 10000 0 100 100 100 0 0 (1/10)).mpr (Or.inl (by norm_num))
